import Mathlib

/-!
Verification of the Rockchip RK322x PSCI power-management core
(`core/arch/arm/plat-rockchip/psci_rk322x.c`).

The C file is shallowly embedded below.  Machine words are `Nat` values;
the Rockchip CRU/GRF registers written through `write32` are 16-bit
"write-mask" registers: the upper 16 bits of the written word select
which of the lower 16 bits are updated, and reads return the 16-bit
register content.  Hardware-driven status bits (the GRF core-status
register polled by `wait_core_wfe_i`, and the PLL lock bit polled by
`pll_wait_lock`) are modelled as read oracles (`Nat → Nat`, one value
per successive `read32`), since their values are produced by other
cores / analog hardware, not by this code.  Side effects that matter to
the specification (register writes, barriers, delays, bounded waits,
the SEV broadcast, the fatal halt) are recorded in an explicit event
trace.
-/

namespace RK322X

/-! ## Constants

Constants coming from headers that are not part of the extracted
sources (`cru.h`, `grf.h`, `sm/psci.h`, `arm.h`, `platform_config.h`)
are modelled from the spec; their exact numeric values are irrelevant
to the claims except where noted (distinctness of the PSCI function
identifiers, single-bit-ness of per-core status masks, the value of
`MPIDR_CPU_MASK`).
-/

/-- Modelled from the spec: PSCI result code SUCCESS (`sm/psci.h` is not
in the extracted sources; values are the ARM-defined ones). -/
def PSCI_RET_SUCCESS : Int := 0

/-- Modelled from the spec: PSCI result code NOT_SUPPORTED. -/
def PSCI_RET_NOT_SUPPORTED : Int := -1

/-- Modelled from the spec: PSCI result code INVALID_PARAMETERS. -/
def PSCI_RET_INVALID_PARAMETERS : Int := -2

/-- Modelled from the spec: PSCI result code DENIED. -/
def PSCI_RET_DENIED : Int := -3

/-- Modelled from the spec: PSCI result code INTERNAL_FAILURE. -/
def PSCI_RET_INTERNAL_FAILURE : Int := -6

/-- Modelled from the spec: affinity query result ON. -/
def PSCI_AFFINITY_LEVEL_ON : Int := 0

/-- Modelled from the spec: affinity query result OFF. -/
def PSCI_AFFINITY_LEVEL_OFF : Int := 1

/-- Modelled from the spec: PSCI function identifier of the
features-query function (ARM standard SMC32 value). -/
def PSCI_PSCI_FEATURES : Nat := 0x8400000A

/-- Modelled from the spec: PSCI function identifier of `version`. -/
def PSCI_VERSION : Nat := 0x84000000

/-- Modelled from the spec: PSCI function identifier of `cpu_on`. -/
def PSCI_CPU_ON : Nat := 0x84000003

/-- Modelled from the spec: PSCI function identifier of `cpu_off`. -/
def PSCI_CPU_OFF : Nat := 0x84000002

/-- Modelled from the spec: PSCI function identifier of `system_suspend`. -/
def PSCI_SYSTEM_SUSPEND : Nat := 0x8400000E

/-- Modelled from the spec: PSCI function identifier of `system_reset`. -/
def PSCI_SYSTEM_RESET : Nat := 0x84000009

/-- Modelled from the spec: number of physical cores N of the SoC
(`CFG_TEE_CORE_NB_CORE`, quad-core part). -/
def CFG_TEE_CORE_NB_CORE : Nat := 4

/-- Modelled from the spec: `MPIDR_CPU_MASK` from `arm.h`, the mask
applied to an affinity value to extract the core id (low affinity
byte). -/
def MPIDR_CPU_MASK : Nat := 0xff

/-- Modelled from the spec: secure load address written into the SRAM
handoff record (`CFG_TEE_LOAD_ADDR`; exact value irrelevant). -/
def CFG_TEE_LOAD_ADDR : Nat := 0x68400000

/-- Modelled from the spec: lock tag written into the SRAM handoff
record (`LOCK_TAG`; exact value irrelevant). -/
def LOCK_TAG : Nat := 0xDEADBEAF

/-- Number of clock-gate registers (`CRU_CLKGATE_CON_CNT`); the gating
table in the source has exactly 16 entries. -/
def CRU_CLKGATE_CON_CNT : Nat := 16

/-- The constant per-domain clock-gating table `clks_gating_table`
from the source (16 entries). -/
def clks_gating_table : List Nat :=
  [0xefb8, 0x0ff7, 0xfff4, 0x887f,
   0x0030, 0x00f8, 0x07e0, 0xc000,
   0xff84, 0xb047, 0x1ca0, 0x57ff,
   0x0000, 0x00ff, 0x1cc0, 0x000f]

/-- Modelled from the spec: PLL identifiers from `cru.h`
(APLL/DPLL/CPLL/GPLL). -/
def APLL_ID : Nat := 0

/-- Modelled from the spec: PLL identifier of the codec PLL. -/
def CPLL_ID : Nat := 2

/-- Modelled from the spec: PLL identifier of the general PLL. -/
def GPLL_ID : Nat := 3

/-- Modelled from the spec: bit position of a PLL's mode-select bit in
the CRU mode register (one bit per PLL, 4 bits apart). -/
def PLL_MODE_BIT (pll : Nat) : Nat := 4 * pll

/-- Modelled from the spec: the PLL lock status bit read from
`CRU_PLL_CON1` (a single status bit; exact position irrelevant). -/
def PLL_LOCK : Nat := 1 <<< 10

/-- Modelled from the spec: the per-core "waiting for event" status bit
in `GRF_CPU_STATUS1` (one bit per core; exact position irrelevant —
claims only need that it is a single bit). -/
def CORE_WFE_I_MASK (core : Nat) : Nat := 1 <<< (4 + core)

/-- Modelled from the spec: the per-core "waiting for interrupt" status
bit in `GRF_CPU_STATUS1` read by `affinity_info`. -/
def CORE_WFI_MASK (core : Nat) : Nat := 1 <<< core

/-! ## Write-mask register model

`BITS_WITH_WMASK(bits, msk, shift)` (from the platform `common.h`) is
`((bits) << (shift)) | ((msk) << ((shift) + 16))`; `BITS_WMSK(msk,
shift)` is its mask-only half.  Modelled from the spec ("a write-mask
field protects unrelated bits"): writing a word `w` to a write-mask
register of 16-bit content `old` replaces exactly the bits of `old`
selected by the upper half of `w` with the corresponding lower bits of
`w`. -/

/-- The C macro `BITS_WITH_WMASK(bits, msk, shift)`. -/
def BITS_WITH_WMASK (bits msk shift : Nat) : Nat :=
  (bits <<< shift) ||| (msk <<< (shift + 16))

/-- The C macro `BITS_WMSK(msk, shift)`. -/
def BITS_WMSK (msk shift : Nat) : Nat := msk <<< (shift + 16)

/-- Modelled from the spec: the SoC-specific `PLL_SLOW_MODE(pll)` write
word — select slow (bypass) mode for one PLL, write mask covering only
that PLL's mode bit. -/
def PLL_SLOW_MODE (pll : Nat) : Nat := BITS_WITH_WMASK 0 1 (PLL_MODE_BIT pll)

/-- Modelled from the spec: the `PLL_POWER_DOWN` write word for
`CRU_PLL_CON1` (assert the power-down bit under its write mask). -/
def PLL_POWER_DOWN : Nat := BITS_WITH_WMASK 1 1 13

/-- Modelled from the spec: the `PLL_POWER_UP` write word for
`CRU_PLL_CON1`. -/
def PLL_POWER_UP : Nat := BITS_WITH_WMASK 0 1 13

/-- Modelled from the spec: `CORE_SOFT_RESET(core)` — assert the soft
reset bit of one core under its write mask. -/
def CORE_SOFT_RESET (core : Nat) : Nat := BITS_WITH_WMASK 1 1 core

/-- Modelled from the spec: `CORE_SOFT_RELEASE(core)` — clear the soft
reset bit of one core under its write mask. -/
def CORE_SOFT_RELEASE (core : Nat) : Nat := BITS_WITH_WMASK 0 1 core

/-- Modelled from the spec: `CORE_HELD_IN_RESET(core)` — the read mask
testing whether a core's soft-reset bit is currently set. -/
def CORE_HELD_IN_RESET (core : Nat) : Nat := 1 <<< core

/-- Lower (value) half of a write-mask word. -/
def wmLow (w : Nat) : Nat := w &&& 0xffff

/-- Upper (mask) half of a write-mask word. -/
def wmMask (w : Nat) : Nat := (w >>> 16) &&& 0xffff

/-- Hardware semantics of a `write32` to a 16-bit write-mask register:
bits selected by the mask half come from the value half, the rest keep
their old content. -/
def wmaskWrite (old w : Nat) : Nat :=
  (old &&& (0xffff ^^^ wmMask w)) ||| (wmLow w &&& wmMask w)

theorem testBit_wmaskWrite (old w i : Nat) :
    (wmaskWrite old w).testBit i =
      if i < 16 then
        (if w.testBit (16 + i) then w.testBit i else old.testBit i)
      else false := by
  have h16 : (0xffff : Nat) = 2 ^ 16 - 1 := by norm_num
  simp only [wmaskWrite, wmLow, wmMask, Nat.testBit_or, Nat.testBit_and,
    Nat.testBit_xor, Nat.testBit_shiftRight, h16, Nat.testBit_two_pow_sub_one]
  by_cases h : i < 16
  · cases hw : w.testBit (16 + i) <;> cases hv : w.testBit i <;>
      cases ho : old.testBit i <;> simp [h, hw, hv, ho]
  · simp [h]

/-- A 16-bit register content has no bits at positions 16 and above. -/
theorem testBit_high {x : Nat} (hx : x < 65536) {j : Nat} (hj : 16 ≤ j) :
    x.testBit j = false := by
  apply Nat.testBit_lt_two_pow
  calc x < 65536 := hx
    _ = 2 ^ 16 := by norm_num
    _ ≤ 2 ^ j := Nat.pow_le_pow_right (by norm_num) hj

theorem wmaskWrite_lt (old w : Nat) : wmaskWrite old w < 65536 := by
  have h : (65536 : Nat) = 2 ^ 16 := by norm_num
  rw [wmaskWrite, h]
  refine Nat.or_lt_two_pow ?_ ?_
  · exact Nat.and_lt_two_pow _
      (Nat.xor_lt_two_pow (by norm_num) (Nat.and_lt_two_pow _ (by norm_num)))
  · exact Nat.and_lt_two_pow _ (Nat.and_lt_two_pow _ (by norm_num))

theorem testBit_BITS_WITH_WMASK (bits msk shift j : Nat) :
    (BITS_WITH_WMASK bits msk shift).testBit j =
      ((decide (shift ≤ j) && bits.testBit (j - shift)) ||
       (decide (shift + 16 ≤ j) && msk.testBit (j - (shift + 16)))) := by
  simp [BITS_WITH_WMASK, Nat.testBit_or, Nat.testBit_shiftLeft, ge_iff_le]

theorem testBit_BITS_WMSK (msk shift j : Nat) :
    (BITS_WMSK msk shift).testBit j =
      (decide (shift + 16 ≤ j) && msk.testBit (j - (shift + 16))) := by
  simp [BITS_WMSK, Nat.testBit_shiftLeft, ge_iff_le]

theorem testBit_ffff (i : Nat) : (0xffff : Nat).testBit i = decide (i < 16) := by
  rw [show (0xffff : Nat) = 2 ^ 16 - 1 from by norm_num,
    Nat.testBit_two_pow_sub_one]

theorem testBit_one_iff (j : Nat) : (1 : Nat).testBit j = decide (j = 0) := by
  rw [show (1 : Nat) = 2 ^ 0 from rfl, Nat.testBit_two_pow]
  simp [eq_comm]

/-- A full-mask write (`BITS_WITH_WMASK(x, 0xffff, 0)` with `x < 2^16`)
sets the register to exactly `x`, whatever it held before. -/
theorem wmaskWrite_full (z x : Nat) (hx : x < 65536) :
    wmaskWrite z (BITS_WITH_WMASK x 0xffff 0) = x := by
  apply Nat.eq_of_testBit_eq
  intro i
  rw [testBit_wmaskWrite]
  by_cases h : i < 16
  · have hm : (BITS_WITH_WMASK x 0xffff 0).testBit (16 + i) = true := by
      rw [testBit_BITS_WITH_WMASK]
      simp [testBit_high hx (show 16 ≤ 16 + i by omega), testBit_ffff, h]
    have hv : (BITS_WITH_WMASK x 0xffff 0).testBit i = x.testBit i := by
      rw [testBit_BITS_WITH_WMASK]
      simp [testBit_ffff, show ¬ (16 ≤ i) from by omega]
    simp [h, hm, hv]
  · simp [h, testBit_high hx (show 16 ≤ i by omega)]

/-- Round trip of the CRU mode register across `plls_power_down`
(three single-bit slow-mode writes) and the three mode-restore writes
at the end of `plls_restore`. -/
theorem mode_con_roundtrip (M : Nat) (hM : M < 65536) :
    wmaskWrite (wmaskWrite (wmaskWrite
      (wmaskWrite (wmaskWrite (wmaskWrite M
        (PLL_SLOW_MODE GPLL_ID)) (PLL_SLOW_MODE CPLL_ID))
        (PLL_SLOW_MODE APLL_ID))
      (M ||| BITS_WMSK 0x1 (PLL_MODE_BIT APLL_ID)))
      (M ||| BITS_WMSK 0x1 (PLL_MODE_BIT CPLL_ID)))
      (M ||| BITS_WMSK 0x1 (PLL_MODE_BIT GPLL_ID)) = M := by
  apply Nat.eq_of_testBit_eq
  intro i
  by_cases h : i < 16
  · simp only [testBit_wmaskWrite, PLL_SLOW_MODE, PLL_MODE_BIT, APLL_ID,
      CPLL_ID, GPLL_ID, testBit_BITS_WITH_WMASK, testBit_BITS_WMSK,
      Nat.testBit_or, testBit_one_iff, Nat.testBit_zero]
    interval_cases i <;>
      simp [testBit_high hM]
  · simp [testBit_wmaskWrite, h, testBit_high hM (show 16 ≤ i by omega)]

theorem testBit_mask1f (i : Nat) : (0x1f : Nat).testBit i = decide (i < 5) := by
  rw [show (0x1f : Nat) = 2 ^ 5 - 1 from by norm_num,
    Nat.testBit_two_pow_sub_one]

theorem testBit_maskf (i : Nat) : (0xf : Nat).testBit i = decide (i < 4) := by
  rw [show (0xf : Nat) = 2 ^ 4 - 1 from by norm_num,
    Nat.testBit_two_pow_sub_one]

theorem testBit_mask7 (i : Nat) : (0x7 : Nat).testBit i = decide (i < 3) := by
  rw [show (0x7 : Nat) = 2 ^ 3 - 1 from by norm_num,
    Nat.testBit_two_pow_sub_one]

theorem testBit_mask3 (i : Nat) : (0x3 : Nat).testBit i = decide (i < 2) := by
  rw [show (0x3 : Nat) = 2 ^ 2 - 1 from by norm_num,
    Nat.testBit_two_pow_sub_one]

theorem testBit_mask3fff (i : Nat) : (0x3fff : Nat).testBit i = decide (i < 14) := by
  rw [show (0x3fff : Nat) = 2 ^ 14 - 1 from by norm_num,
    Nat.testBit_two_pow_sub_one]

/-- Round trip of `CRU_CLKSEL_CON(0)`: the two divider writes of
`plls_power_down` (core field, pdbus field) followed by the two
mask-guarded restore writes of `plls_restore`. -/
theorem clksel0_roundtrip (S : Nat) (hS : S < 65536) :
    wmaskWrite (wmaskWrite
      (wmaskWrite (wmaskWrite S (BITS_WITH_WMASK 0 0x1f 0))
        (BITS_WITH_WMASK 0 0x1f 8))
      (S ||| BITS_WMSK 0x1f 8)) (S ||| BITS_WMSK 0x1f 0) = S := by
  apply Nat.eq_of_testBit_eq
  intro i
  by_cases h : i < 16
  · simp only [testBit_wmaskWrite, testBit_BITS_WITH_WMASK, testBit_BITS_WMSK,
      Nat.testBit_or, testBit_mask1f, Nat.testBit_zero]
    interval_cases i <;> simp [testBit_high hS]
  · simp [testBit_wmaskWrite, h, testBit_high hS (show 16 ≤ i by omega)]

/-- Round trip of `CRU_CLKSEL_CON(1)` across `plls_power_down` and
`plls_restore`. -/
theorem clksel1_roundtrip (S : Nat) (hS : S < 65536) :
    wmaskWrite (wmaskWrite
      (wmaskWrite (wmaskWrite S
        (BITS_WITH_WMASK 0 0xf 0 ||| BITS_WITH_WMASK 0 0x7 4))
        (BITS_WITH_WMASK 0 0x3 8 ||| BITS_WITH_WMASK 0 0x7 12))
      (S ||| BITS_WMSK 0x3 8 ||| BITS_WMSK 0x7 12))
      (S ||| BITS_WMSK 0xf 0 ||| BITS_WMSK 0x7 4) = S := by
  apply Nat.eq_of_testBit_eq
  intro i
  by_cases h : i < 16
  · simp only [testBit_wmaskWrite, testBit_BITS_WITH_WMASK, testBit_BITS_WMSK,
      Nat.testBit_or, testBit_maskf, testBit_mask7, testBit_mask3,
      Nat.testBit_zero]
    interval_cases i <;> simp [testBit_high hS]
  · simp [testBit_wmaskWrite, h, testBit_high hS (show 16 ≤ i by omega)]

/-- Round trip of `CRU_CLKSEL_CON(10)` (peri aclk/hclk/pclk dividers)
across `plls_power_down` and `plls_restore`. -/
theorem clksel10_roundtrip (S : Nat) (hS : S < 65536) :
    wmaskWrite (wmaskWrite S
      (BITS_WITH_WMASK 0 0x1f 0 ||| BITS_WITH_WMASK 0 0x3 8 |||
        BITS_WITH_WMASK 0 0x7 12))
      (S ||| BITS_WMSK 0x1f 0 ||| BITS_WMSK 0x3 8 ||| BITS_WMSK 0x7 12) =
      S := by
  apply Nat.eq_of_testBit_eq
  intro i
  by_cases h : i < 16
  · simp only [testBit_wmaskWrite, testBit_BITS_WITH_WMASK, testBit_BITS_WMSK,
      Nat.testBit_or, testBit_mask1f, testBit_mask7, testBit_mask3,
      Nat.testBit_zero]
    interval_cases i <;> simp [testBit_high hS]
  · simp [testBit_wmaskWrite, h, testBit_high hS (show 16 ≤ i by omega)]

/-- Round trip of `CRU_CLKSEL_CON(21)` (hdmi cec 32k divider) across
`plls_power_down` and `plls_restore`. -/
theorem clksel21_roundtrip (S : Nat) (hS : S < 65536) :
    wmaskWrite (wmaskWrite S
      (BITS_WITH_WMASK 732 0x3fff 0 ||| BITS_WITH_WMASK 2 0x3 14))
      (S ||| BITS_WMSK 0x3fff 0 ||| BITS_WMSK 0x3 14) = S := by
  apply Nat.eq_of_testBit_eq
  intro i
  by_cases h : i < 16
  · simp only [testBit_wmaskWrite, testBit_BITS_WITH_WMASK, testBit_BITS_WMSK,
      Nat.testBit_or, testBit_mask3fff, testBit_mask3, Nat.testBit_zero]
    interval_cases i <;> simp [testBit_high hS]
  · simp [testBit_wmaskWrite, h, testBit_high hS (show 16 ≤ i by omega)]

/-! ## Bounded polling

Both busy-waits in the source (`wait_core_wfe_i`, `pll_wait_lock`) are
the same loop shape: re-read a status register while the awaited bit is
clear and fewer than 500 iterations have run, with `udelay(2)` between
reads, then re-read once more for the final decision.  `bit t` is the
value of the awaited bit at the `t`-th successive `read32`. -/

/-- Number of loop iterations executed by the bounded poll: stop as
soon as the bit is observed set, or when the fuel (500 minus the loop
counter) runs out. -/
def pollAux (bit : Nat → Bool) : Nat → Nat → Nat
  | _, 0 => 0
  | t, fuel + 1 => if bit t then 0 else pollAux bit (t + 1) fuel + 1

theorem pollAux_le (bit : Nat → Bool) (t fuel : Nat) :
    pollAux bit t fuel ≤ fuel := by
  induction fuel generalizing t with
  | zero => simp [pollAux]
  | succ n ih =>
    rw [pollAux]
    split
    · omega
    · exact Nat.succ_le_succ (ih (t + 1))

theorem pollAux_const_false (bit : Nat → Bool) (h : ∀ t, bit t = false)
    (t fuel : Nat) : pollAux bit t fuel = fuel := by
  induction fuel generalizing t with
  | zero => simp [pollAux]
  | succ n ih => rw [pollAux]; simp [h, ih]

/-- Iterations of the `wait_core_wfe_i` loop (`reads` is the sequence
of `GRF_CPU_STATUS1` values returned by successive `read32`). -/
def wfeIters (reads : Nat → Nat) (core : Nat) : Nat :=
  pollAux (fun t => reads t &&& CORE_WFE_I_MASK core != 0) 0 500

/-- `wait_core_wfe_i(core)` from the source: bounded poll of the
per-core WFE status bit, then one final re-read for the returned
value. -/
def wait_core_wfe_i (reads : Nat → Nat) (core : Nat) : Bool :=
  reads (wfeIters reads core + 1) &&& CORE_WFE_I_MASK core != 0

/-- Iterations of the `pll_wait_lock` loop (`reads` is the sequence of
`CRU_PLL_CON1` values returned by successive `read32`; the lock bit is
hardware-driven). -/
def lockIters (reads : Nat → Nat) : Nat :=
  pollAux (fun t => reads t &&& PLL_LOCK != 0) 0 500

/-- `pll_wait_lock(pll)` from the source, as the final lock test: the
function halts the system (`panic()`) exactly when this is `false`. -/
def pll_wait_lock (reads : Nat → Nat) : Bool :=
  reads (lockIters reads + 1) &&& PLL_LOCK != 0

/-- `core_held_in_reset(core)` from the source: pure status read of
`CRU_SOFTRST_CON(0)`. -/
def core_held_in_reset (softrst0 core : Nat) : Bool :=
  softrst0 &&& CORE_HELD_IN_RESET core != 0

/-! ## Observable events -/

/-- The memory-mapped registers written by the embedded code. -/
inductive Reg where
  | softrst0
  | modeCon
  | sndrst
  | clkselCon (i : Nat)
  | clkgateCon (i : Nat)
  | pllCon1 (pll : Nat)
  | sramBoot
  | sramLock
  deriving Repr, DecidableEq

/-- Observable side effects, recorded in program order. -/
inductive Ev where
  | entryWrite (core val : Nat)
  | regWrite (r : Reg) (w : Nat)
  | barrier
  | delay (us : Nat)
  | wfeWait (core : Nat) (ok : Bool)
  | lockWait (pll iters : Nat)
  | fatalHalt
  | sev
  deriving Repr, DecidableEq

/-- Is the event a hardware register write? -/
def Ev.isRegWrite : Ev → Bool
  | .regWrite _ _ => true
  | _ => false

/-- Is the event part of the SRAM secure-handoff publication (handoff
record write or the SEV broadcast)? -/
def Ev.isHandoff : Ev → Bool
  | .regWrite .sramBoot _ => true
  | .regWrite .sramLock _ => true
  | .sev => true
  | _ => false

/-- Is the event a write to the entry-address table? -/
def Ev.isEntryWrite : Ev → Bool
  | .entryWrite _ _ => true
  | _ => false

/-! ## Clock/PLL power sequencer state -/

/-- The CRU clock-controller registers touched by the suspend path.
Each register holds a 16-bit value (write-mask register). -/
@[ext]
structure CruState where
  mode_con : Nat
  clksel0 : Nat
  clksel1 : Nat
  clksel10 : Nat
  clksel21 : Nat
  clkgate : List Nat
  pllcon1 : List Nat
  deriving Repr, DecidableEq

/-- The process-wide save area `struct dram_data dram_d` from the
source. -/
structure DramData where
  cru_mode_con : Nat
  cru_clksel0 : Nat
  cru_clksel1 : Nat
  cru_clksel10 : Nat
  cru_clksel21 : Nat
  cru_clkgate : List Nat
  deriving Repr, DecidableEq

/-- `clks_disable()` from the source: save every clock-gate register
into `dram_d`, then force the gates of the constant gating table closed
under a full write mask. -/
def clks_disable (s : CruState) (d : DramData) : CruState × DramData :=
  ({ s with
      clkgate := s.clkgate.zipWith
        (fun g t => wmaskWrite g (BITS_WITH_WMASK t 0xffff 0))
        clks_gating_table },
   { d with cru_clkgate := s.clkgate })

/-- `clks_restore()` from the source: write every saved clock-gate
value back under a full write mask. -/
def clks_restore (s : CruState) (d : DramData) : CruState :=
  { s with
      clkgate := s.clkgate.zipWith
        (fun g v => wmaskWrite g (BITS_WITH_WMASK v 0xffff 0))
        d.cru_clkgate }

/-- Write to `CRU_PLL_CON1(pll)`. -/
def pllCon1Write (s : CruState) (pll w : Nat) : CruState :=
  { s with pllcon1 := s.pllcon1.set pll (wmaskWrite (s.pllcon1.getD pll 0) w) }

/-- `pll_power_down(pll)` from the source: slow mode, then assert
power-down. -/
def pll_power_down (pll : Nat) (s : CruState) : CruState :=
  pllCon1Write
    { s with mode_con := wmaskWrite s.mode_con (PLL_SLOW_MODE pll) }
    pll PLL_POWER_DOWN

/-- `pll_power_up(pll)` from the source. -/
def pll_power_up (pll : Nat) (s : CruState) : CruState :=
  pllCon1Write s pll PLL_POWER_UP

/-- `plls_power_down()` from the source: snapshot the clock-select and
mode registers, power the three PLLs down (GPLL, CPLL, APLL), then
drop the bus dividers to the 24&nbsp;MHz oscillator. -/
def plls_power_down (s : CruState) (d : DramData) : CruState × DramData :=
  let d := { d with
      cru_clksel0 := s.clksel0
      cru_clksel1 := s.clksel1
      cru_clksel10 := s.clksel10
      cru_clksel21 := s.clksel21
      cru_mode_con := s.mode_con }
  let s := pll_power_down GPLL_ID s
  let s := pll_power_down CPLL_ID s
  let s := pll_power_down APLL_ID s
  let wCore0 := BITS_WITH_WMASK 0 0x1f 0
  let wCore1 := BITS_WITH_WMASK 0 0xf 0 ||| BITS_WITH_WMASK 0 0x7 4
  let wPeri10 := BITS_WITH_WMASK 0 0x1f 0 ||| BITS_WITH_WMASK 0 0x3 8 |||
    BITS_WITH_WMASK 0 0x7 12
  let wPdbus0 := BITS_WITH_WMASK 0 0x1f 8
  let wPdbus1 := BITS_WITH_WMASK 0 0x3 8 ||| BITS_WITH_WMASK 0 0x7 12
  let wHdmi21 := BITS_WITH_WMASK 732 0x3fff 0 ||| BITS_WITH_WMASK 2 0x3 14
  let s := { s with clksel0 := wmaskWrite s.clksel0 wCore0 }
  let s := { s with clksel1 := wmaskWrite s.clksel1 wCore1 }
  let s := { s with clksel10 := wmaskWrite s.clksel10 wPeri10 }
  let s := { s with clksel0 := wmaskWrite s.clksel0 wPdbus0 }
  let s := { s with clksel1 := wmaskWrite s.clksel1 wPdbus1 }
  let s := { s with clksel21 := wmaskWrite s.clksel21 wHdmi21 }
  (s, d)

/-- `plls_restore()` from the source.  `locks pll t` is the value of
pll's `CRU_PLL_CON1` at its `t`-th successive lock-poll read (the lock
bit is set by hardware).  Result `none` models the fatal `panic()` when
a PLL fails to lock; the event trace stops at the halt. -/
def plls_restore (locks : Nat → Nat → Nat) (d : DramData) (s : CruState) :
    Option CruState × List Ev :=
  let s := pll_power_up APLL_ID s
  let s := pll_power_up GPLL_ID s
  let s := pll_power_up CPLL_ID s
  let t0 : List Ev :=
    [.regWrite (.pllCon1 APLL_ID) PLL_POWER_UP,
     .regWrite (.pllCon1 GPLL_ID) PLL_POWER_UP,
     .regWrite (.pllCon1 CPLL_ID) PLL_POWER_UP,
     .delay 200]
  let tA := t0 ++ [.lockWait APLL_ID (lockIters (locks APLL_ID))]
  if pll_wait_lock (locks APLL_ID) = false then (none, tA ++ [.fatalHalt])
  else
    let tG := tA ++ [.lockWait GPLL_ID (lockIters (locks GPLL_ID))]
    if pll_wait_lock (locks GPLL_ID) = false then (none, tG ++ [.fatalHalt])
    else
      let tC := tG ++ [.lockWait CPLL_ID (lockIters (locks CPLL_ID))]
      if pll_wait_lock (locks CPLL_ID) = false then (none, tC ++ [.fatalHalt])
      else
        let rHdmi21 := d.cru_clksel21 ||| BITS_WMSK 0x3fff 0 ||| BITS_WMSK 0x3 14
        let rPdbus0 := d.cru_clksel0 ||| BITS_WMSK 0x1f 8
        let rPdbus1 := d.cru_clksel1 ||| BITS_WMSK 0x3 8 ||| BITS_WMSK 0x7 12
        let rPeri10 := d.cru_clksel10 ||| BITS_WMSK 0x1f 0 ||| BITS_WMSK 0x3 8 |||
          BITS_WMSK 0x7 12
        let rCore0 := d.cru_clksel0 ||| BITS_WMSK 0x1f 0
        let rCore1 := d.cru_clksel1 ||| BITS_WMSK 0xf 0 ||| BITS_WMSK 0x7 4
        let rModeA := d.cru_mode_con ||| BITS_WMSK 0x1 (PLL_MODE_BIT APLL_ID)
        let rModeC := d.cru_mode_con ||| BITS_WMSK 0x1 (PLL_MODE_BIT CPLL_ID)
        let rModeG := d.cru_mode_con ||| BITS_WMSK 0x1 (PLL_MODE_BIT GPLL_ID)
        let s := { s with clksel21 := wmaskWrite s.clksel21 rHdmi21 }
        let s := { s with clksel0 := wmaskWrite s.clksel0 rPdbus0 }
        let s := { s with clksel1 := wmaskWrite s.clksel1 rPdbus1 }
        let s := { s with clksel10 := wmaskWrite s.clksel10 rPeri10 }
        let s := { s with clksel0 := wmaskWrite s.clksel0 rCore0 }
        let s := { s with clksel1 := wmaskWrite s.clksel1 rCore1 }
        let s := { s with mode_con := wmaskWrite s.mode_con rModeA }
        let s := { s with mode_con := wmaskWrite s.mode_con rModeC }
        let s := { s with mode_con := wmaskWrite s.mode_con rModeG }
        (some s,
         tC ++ [.regWrite (.clkselCon 21) 0, .regWrite (.clkselCon 0) 0,
                .regWrite (.clkselCon 1) 0, .regWrite (.clkselCon 10) 0,
                .regWrite (.clkselCon 0) 0, .regWrite (.clkselCon 1) 0,
                .regWrite .modeCon 0, .regWrite .modeCon 0,
                .regWrite .modeCon 0])

/-- `psci_system_suspend` from the source, restricted to its effect on
the CRU registers: disable clocks, power PLLs down, (cache flush and
`wfi()` are external collaborators with no CRU effect), then restore.
`none` models the fatal halt when a PLL fails to relock. -/
def psci_system_suspend (locks : Nat → Nat → Nat) (s : CruState)
    (d : DramData) : Option (Int × CruState) :=
  let sd1 := clks_disable s d
  let sd2 := plls_power_down sd1.1 sd1.2
  match plls_restore locks sd2.2 sd2.1 with
  | (none, _) => none
  | (some s3, _) => some (PSCI_RET_SUCCESS, clks_restore s3 sd2.2)

/-! ## PSCI state machine -/

/-- `psci_version()` from the source. -/
def PSCI_VERSION_1_0 : Nat := 0x10000

/-- `psci_version()` from the source: constant. -/
def psci_version : Nat := PSCI_VERSION_1_0

/-- `psci_features` from the source: `switch` over the six supported
function identifiers. -/
def psci_features (psci_fid : Nat) : Int :=
  if psci_fid = PSCI_PSCI_FEATURES ∨ psci_fid = PSCI_VERSION ∨
     psci_fid = PSCI_CPU_ON ∨ psci_fid = PSCI_CPU_OFF ∨
     psci_fid = PSCI_SYSTEM_SUSPEND ∨ psci_fid = PSCI_SYSTEM_RESET then
    PSCI_RET_SUCCESS
  else
    PSCI_RET_NOT_SUPPORTED

/-- The hardware context `psci_cpu_on` executes against: the current
content of `CRU_SOFTRST_CON(0)` and the two `GRF_CPU_STATUS1` read
sequences seen by the wait before the reset sequence (`grf1`) and by
the wait after the release (`grf2`) — those bits are driven by the
target core. -/
structure CpuOnEnv where
  softrst0 : Nat
  grf1 : Nat → Nat
  grf2 : Nat → Nat

/-- `psci_cpu_on` from the source.  Returns the PSCI status code and
the trace of observable effects (`context_id` is `__unused` in the
source and omitted). -/
def psci_cpu_on (env : CpuOnEnv) (core_idx entry : Nat) : Int × List Ev :=
  let c := core_idx &&& MPIDR_CPU_MASK
  if c = 0 ∨ CFG_TEE_CORE_NB_CORE ≤ c then
    (PSCI_RET_INVALID_PARAMETERS, [])
  else
    let t0 : List Ev := [.entryWrite c entry]
    let t1 := if core_held_in_reset env.softrst0 c then t0
              else t0 ++ [.wfeWait c (wait_core_wfe_i env.grf1 c)]
    if !core_held_in_reset env.softrst0 c && !wait_core_wfe_i env.grf1 c then
      (PSCI_RET_DENIED, t1)
    else
      let t2 := t1 ++
        [.regWrite .softrst0 (CORE_SOFT_RESET c), .barrier, .delay 2,
         .regWrite .softrst0 (CORE_SOFT_RELEASE c), .barrier]
      let t3 := t2 ++ [.wfeWait c (wait_core_wfe_i env.grf2 c)]
      if !wait_core_wfe_i env.grf2 c then
        (PSCI_RET_DENIED, t3)
      else
        (PSCI_RET_SUCCESS,
         t3 ++ [.regWrite .sramBoot CFG_TEE_LOAD_ADDR,
                .regWrite .sramLock LOCK_TAG, .barrier, .sev, .barrier])

/-- Events of `psci_cpu_off`. -/
inductive OffEv where
  | powerDownPrep
  | maskExceptions
  | wfiForever
  deriving Repr, DecidableEq

/-- `psci_cpu_off` from the source.  `core` is `get_core_pos()`.  A
`none` status models "never returns" (the `while (1) wfi();` loop);
`powerDownPrep` is the external collaborator call
`psci_armv7_cpu_off()` and `maskExceptions` is
`thread_mask_exceptions(THREAD_EXCP_ALL)`. -/
def psci_cpu_off (core : Nat) : Option Int × List OffEv :=
  if core = 0 ∨ CFG_TEE_CORE_NB_CORE ≤ core then
    (some PSCI_RET_INVALID_PARAMETERS, [])
  else
    (none, [.powerDownPrep, .maskExceptions, .wfiForever])

/-- `psci_affinity_info` from the source: pure read of
`GRF_CPU_STATUS1` (`grf_status1`), core id derived from the affinity
argument; the `lowest_affinity_level` parameter is `__unused` in the
source and omitted. -/
def psci_affinity_info (grf_status1 affinity : Nat) : Int :=
  let core_idx := affinity &&& MPIDR_CPU_MASK
  if grf_status1 &&& CORE_WFI_MASK core_idx != 0 then PSCI_AFFINITY_LEVEL_OFF
  else PSCI_AFFINITY_LEVEL_ON

/-! ## Helper lemmas and fixed instantiation data -/

theorem and_bit_bne (s c : Nat) : (s &&& (1 <<< c) != 0) = s.testBit c := by
  rw [Nat.one_shiftLeft, Nat.and_two_pow]
  cases h : s.testBit c <;> simp [h, Nat.pos_iff_ne_zero, Nat.pow_eq_zero]

theorem testBit_xor_bit (s c : Nat) :
    (s ^^^ (1 <<< c)).testBit c = !s.testBit c := by
  rw [Nat.one_shiftLeft, Nat.testBit_xor, Nat.testBit_two_pow_self,
    Bool.xor_true]

/-- `psci_affinity_info` as a function of the target core's status bit
alone. -/
theorem affinity_info_eq_testBit (s aff : Nat) :
    psci_affinity_info s aff =
      if s.testBit (aff &&& MPIDR_CPU_MASK) then PSCI_AFFINITY_LEVEL_OFF
      else PSCI_AFFINITY_LEVEL_ON := by
  rw [psci_affinity_info, CORE_WFI_MASK, and_bit_bne]

/-- An all-zero CRU state used to instantiate universally quantified
theorems at a concrete input. -/
def cruZero : CruState :=
  ⟨0, 0, 0, 0, 0, List.replicate 16 0, List.replicate 4 0⟩

/-- An all-zero save area. -/
def dramZero : DramData := ⟨0, 0, 0, 0, 0, List.replicate 16 0⟩

/-- A lock-read oracle on which every PLL reports lock immediately. -/
def locksOk : Nat → Nat → Nat := fun _ _ => PLL_LOCK

/-- A lock-read oracle on which no PLL ever reports lock. -/
def locksStuck : Nat → Nat → Nat := fun _ _ => 0

/-- A `cpu_on` context in which core 2 is held in reset and reports
wait-for-event after release: the success path. -/
def envOk : CpuOnEnv := ⟨CORE_HELD_IN_RESET 2, fun _ => 0,
  fun _ => CORE_WFE_I_MASK 2⟩

/-- A `cpu_on` context in which the target core is not held in reset
and never reports wait-for-event. -/
def envStuck : CpuOnEnv := ⟨0, fun _ => 0, fun _ => 0⟩

/-! ## Claims -/

/-- C6: every busy-wait in the core — the per-core wait-for-event poll
of `wait_core_wfe_i` and the PLL lock poll of `pll_wait_lock` — runs at
most 500 iterations, each spaced by a 2-microsecond delay (so at most
1000 µs of polling delay), for every possible sequence of hardware
status reads; both functions are total, returning a boolean
(`wait_core_wfe_i`) or a lock verdict whose failure is the fatal halt
(`pll_wait_lock`, see the PLL-relock claim).  No wait is unbounded. -/
theorem c6_bounded_waits (rWfe rLock : Nat → Nat) (core : Nat) :
    wfeIters rWfe core ≤ 500 ∧ 2 * wfeIters rWfe core ≤ 1000 ∧
    lockIters rLock ≤ 500 ∧ 2 * lockIters rLock ≤ 1000 := by
  have h1 := pollAux_le (fun t => rWfe t &&& CORE_WFE_I_MASK core != 0) 0 500
  have h2 := pollAux_le (fun t => rLock t &&& PLL_LOCK != 0) 0 500
  rw [wfeIters, lockIters]
  omega

/-- C7: `affinity_info` is a pure function of the core-status register
and the affinity argument: the core id is `affinity & MPIDR_CPU_MASK`,
a set status bit for that core maps to AFFINITY_LEVEL_OFF, a clear bit
to AFFINITY_LEVEL_ON (for any register bit pattern), and toggling only
that bit flips the result.  No write events exist in the model of this
function: it consumes the register value and produces only the status
code. -/
theorem c7_affinity_info_pure (s aff : Nat) :
    (s &&& CORE_WFI_MASK (aff &&& MPIDR_CPU_MASK) ≠ 0 →
      psci_affinity_info s aff = PSCI_AFFINITY_LEVEL_OFF) ∧
    (s &&& CORE_WFI_MASK (aff &&& MPIDR_CPU_MASK) = 0 →
      psci_affinity_info s aff = PSCI_AFFINITY_LEVEL_ON) ∧
    psci_affinity_info (s ^^^ CORE_WFI_MASK (aff &&& MPIDR_CPU_MASK)) aff ≠
      psci_affinity_info s aff := by
  have hb := and_bit_bne s (aff &&& MPIDR_CPU_MASK)
  refine ⟨?_, ?_, ?_⟩
  · intro h
    have : (s &&& CORE_WFI_MASK (aff &&& MPIDR_CPU_MASK) != 0) = true := by
      simpa using h
    rw [CORE_WFI_MASK, and_bit_bne] at this
    rw [affinity_info_eq_testBit, this]
    simp
  · intro h
    have : (s &&& CORE_WFI_MASK (aff &&& MPIDR_CPU_MASK) != 0) = false := by
      simpa using h
    rw [CORE_WFI_MASK, and_bit_bne] at this
    rw [affinity_info_eq_testBit, this]
    simp
  · rw [affinity_info_eq_testBit, affinity_info_eq_testBit, CORE_WFI_MASK,
      testBit_xor_bit]
    cases h : s.testBit (aff &&& MPIDR_CPU_MASK) <;>
      simp [h, PSCI_AFFINITY_LEVEL_ON, PSCI_AFFINITY_LEVEL_OFF]

/-- Witness for C7 at a concrete input: core 5's status bit clear maps
to ON, set maps to OFF. -/
theorem c7_witness :
    psci_affinity_info 0 5 = PSCI_AFFINITY_LEVEL_ON ∧
    psci_affinity_info (CORE_WFI_MASK 5) 5 = PSCI_AFFINITY_LEVEL_OFF :=
  ⟨(c7_affinity_info_pure 0 5).2.1 (by decide),
   (c7_affinity_info_pure (CORE_WFI_MASK 5) 5).1 (by decide)⟩

/-- C8: `psci_features` returns SUCCESS for exactly the six supported
function identifiers (features-query, version, cpu_on, cpu_off,
system_suspend, system_reset) and NOT_SUPPORTED for every other 32-bit
value; the lookup is a pure function of the identifier. -/
theorem c8_features_exact (fid : Nat) (hfid : fid < 2 ^ 32) :
    (psci_features fid = PSCI_RET_SUCCESS ↔
      (fid = PSCI_PSCI_FEATURES ∨ fid = PSCI_VERSION ∨ fid = PSCI_CPU_ON ∨
       fid = PSCI_CPU_OFF ∨ fid = PSCI_SYSTEM_SUSPEND ∨
       fid = PSCI_SYSTEM_RESET)) ∧
    (¬(fid = PSCI_PSCI_FEATURES ∨ fid = PSCI_VERSION ∨ fid = PSCI_CPU_ON ∨
       fid = PSCI_CPU_OFF ∨ fid = PSCI_SYSTEM_SUSPEND ∨
       fid = PSCI_SYSTEM_RESET) →
      psci_features fid = PSCI_RET_NOT_SUPPORTED) := by
  by_cases hm : fid = PSCI_PSCI_FEATURES ∨ fid = PSCI_VERSION ∨
      fid = PSCI_CPU_ON ∨ fid = PSCI_CPU_OFF ∨ fid = PSCI_SYSTEM_SUSPEND ∨
      fid = PSCI_SYSTEM_RESET
  · simp [psci_features, hm]
  · simp [psci_features, hm, PSCI_RET_SUCCESS, PSCI_RET_NOT_SUPPORTED]

/-- Witness for C8 at concrete identifiers: `cpu_on` is supported, an
arbitrary other identifier is not. -/
theorem c8_witness :
    psci_features PSCI_CPU_ON = PSCI_RET_SUCCESS ∧
    psci_features 7 = PSCI_RET_NOT_SUPPORTED :=
  ⟨(c8_features_exact PSCI_CPU_ON (by norm_num [PSCI_CPU_ON])).1.mpr
      (Or.inr (Or.inr (Or.inl rfl))),
   (c8_features_exact 7 (by norm_num)).2 (by decide)⟩

/-- C9 counterexample: the claim states `cpu_off` "first masks all
exceptions on the calling core, then performs the core-local power-down
preparation".  On core 1 the code does the opposite: the first action
in the trace is the power-down preparation call
(`psci_armv7_cpu_off()`), and the exception masking
(`thread_mask_exceptions`) comes second. -/
theorem c9_counterexample :
    (psci_cpu_off 1).2.head? = some OffEv.powerDownPrep ∧
    (psci_cpu_off 1).2.head? ≠ some OffEv.maskExceptions ∧
    (psci_cpu_off 1).2.get? 1 = some OffEv.maskExceptions := by
  decide

/-- C9 (amended): `cpu_off` returns INVALID_PARAMETERS when the calling
core is core 0 or out of range; otherwise it first performs the
core-local power-down preparation (external collaborator call), then
masks all exceptions on the calling core, then spins on wait-for-
interrupt forever and never returns on success. -/
theorem c9_cpu_off_amended (core : Nat) :
    (core = 0 ∨ CFG_TEE_CORE_NB_CORE ≤ core →
      psci_cpu_off core = (some PSCI_RET_INVALID_PARAMETERS, [])) ∧
    (core ≠ 0 → core < CFG_TEE_CORE_NB_CORE →
      (psci_cpu_off core).1 = none ∧
      (psci_cpu_off core).2 =
        [OffEv.powerDownPrep, OffEv.maskExceptions, OffEv.wfiForever]) := by
  constructor
  · intro h
    simp [psci_cpu_off, h]
  · intro h1 h2
    simp [psci_cpu_off, h1, Nat.not_le.mpr h2]

/-- Witness for C9 at concrete cores: core 0 is rejected, core 2 never
returns after prep, mask, spin. -/
theorem c9_witness :
    psci_cpu_off 0 = (some PSCI_RET_INVALID_PARAMETERS, []) ∧
    (psci_cpu_off 2).1 = none :=
  ⟨(c9_cpu_off_amended 0).1 (Or.inl rfl),
   ((c9_cpu_off_amended 2).2 (by decide) (by decide)).1⟩

/-- C1 counterexample: the claim asserts that every `core_id ≥ N`
returns INVALID_PARAMETERS with no register writes.  But the source
masks the argument with `MPIDR_CPU_MASK` first, so `core_id = 258`
(with masked value 2) is ≥ N yet passes validation, runs the reset
sequence and returns SUCCESS with a non-empty write trace. -/
theorem c1_counterexample :
    CFG_TEE_CORE_NB_CORE ≤ 258 ∧
    (psci_cpu_on envOk 258 0x80100000).1 ≠ PSCI_RET_INVALID_PARAMETERS ∧
    (psci_cpu_on envOk 258 0x80100000).2 ≠ [] := by
  refine ⟨by decide, ?_, ?_⟩
  · have h : (psci_cpu_on envOk 258 0x80100000).1 = PSCI_RET_SUCCESS := by
      decide
    rw [h]
    decide
  · intro h
    have h2 : ((psci_cpu_on envOk 258 0x80100000).2 = []) = False := by
      decide
    rw [h2] at h
    exact h

/-- C1 (amended): for every call whose masked core id
(`core_id & MPIDR_CPU_MASK`) is 0 or ≥ N, `cpu_on` returns
INVALID_PARAMETERS with an empty effect trace: no entry-table write,
no reset-control write, no SRAM handoff write. -/
theorem c1_cpu_on_invalid (env : CpuOnEnv) (core_idx entry : Nat)
    (h : core_idx &&& MPIDR_CPU_MASK = 0 ∨
         CFG_TEE_CORE_NB_CORE ≤ core_idx &&& MPIDR_CPU_MASK) :
    psci_cpu_on env core_idx entry = (PSCI_RET_INVALID_PARAMETERS, []) := by
  simp [psci_cpu_on, h]

/-- Witness for C1 at concrete inputs: core id 0 and core id 4 are
rejected without effects. -/
theorem c1_witness :
    psci_cpu_on envStuck 0 100 = (PSCI_RET_INVALID_PARAMETERS, []) ∧
    psci_cpu_on envStuck 4 100 = (PSCI_RET_INVALID_PARAMETERS, []) :=
  ⟨c1_cpu_on_invalid envStuck 0 100 (Or.inl (by decide)),
   c1_cpu_on_invalid envStuck 4 100 (Or.inr (by decide))⟩

/-- C2: in every execution of `cpu_on` that reaches the reset sequence
(the target core was held in reset, or the pre-reset wait-for-event
poll succeeded), the caller-supplied entry address is written to the
entry-address table slot of the target core strictly before the
reset-release write to the reset-control register, with a barrier
strictly between the two. -/
theorem c2_entry_before_release (env : CpuOnEnv) (core_idx entry : Nat)
    (h0 : core_idx &&& MPIDR_CPU_MASK ≠ 0)
    (hN : core_idx &&& MPIDR_CPU_MASK < CFG_TEE_CORE_NB_CORE)
    (hr : core_held_in_reset env.softrst0 (core_idx &&& MPIDR_CPU_MASK) = true ∨
          wait_core_wfe_i env.grf1 (core_idx &&& MPIDR_CPU_MASK) = true) :
    ∃ i k j, i < k ∧ k < j ∧
      (psci_cpu_on env core_idx entry).2.get? i =
        some (Ev.entryWrite (core_idx &&& MPIDR_CPU_MASK) entry) ∧
      (psci_cpu_on env core_idx entry).2.get? k = some Ev.barrier ∧
      (psci_cpu_on env core_idx entry).2.get? j =
        some (Ev.regWrite Reg.softrst0
          (CORE_SOFT_RELEASE (core_idx &&& MPIDR_CPU_MASK))) := by
  have hcond : ¬(core_idx &&& MPIDR_CPU_MASK = 0 ∨
      CFG_TEE_CORE_NB_CORE ≤ core_idx &&& MPIDR_CPU_MASK) := by
    push_neg
    exact ⟨h0, hN⟩
  cases hheld : core_held_in_reset env.softrst0 (core_idx &&& MPIDR_CPU_MASK)
  · have hw1 : wait_core_wfe_i env.grf1 (core_idx &&& MPIDR_CPU_MASK) = true := by
      rcases hr with h | h
      · rw [hheld] at h
        exact absurd h (by decide)
      · exact h
    cases hw2 : wait_core_wfe_i env.grf2 (core_idx &&& MPIDR_CPU_MASK) <;>
      · refine ⟨0, 3, 5, by omega, by omega, ?_, ?_, ?_⟩ <;>
          simp [psci_cpu_on, hcond, hheld, hw1, hw2]
  · cases hw2 : wait_core_wfe_i env.grf2 (core_idx &&& MPIDR_CPU_MASK) <;>
      · refine ⟨0, 2, 4, by omega, by omega, ?_, ?_, ?_⟩ <;>
          simp [psci_cpu_on, hcond, hheld, hw2]

/-- Witness for C2 at a concrete input: core 2 held in reset,
wait-for-event seen after release. -/
theorem c2_witness :
    ∃ i k j, i < k ∧ k < j ∧
      (psci_cpu_on envOk 2 0x80100000).2.get? i =
        some (Ev.entryWrite (2 &&& MPIDR_CPU_MASK) 0x80100000) ∧
      (psci_cpu_on envOk 2 0x80100000).2.get? k = some Ev.barrier ∧
      (psci_cpu_on envOk 2 0x80100000).2.get? j =
        some (Ev.regWrite Reg.softrst0
          (CORE_SOFT_RELEASE (2 &&& MPIDR_CPU_MASK))) :=
  c2_entry_before_release envOk 2 0x80100000 (by decide) (by decide)
    (Or.inl (by decide))

/-- C5: for every valid (masked) core id, `cpu_on` returns DENIED
exactly when a bounded wait-for-event poll fails — either the pre-reset
poll (only run when the core is not currently held in reset) or the
post-release poll; and on every DENIED return the trace contains no
SRAM handoff write and no SEV broadcast. -/
theorem c5_cpu_on_denied (env : CpuOnEnv) (core_idx entry : Nat)
    (h0 : core_idx &&& MPIDR_CPU_MASK ≠ 0)
    (hN : core_idx &&& MPIDR_CPU_MASK < CFG_TEE_CORE_NB_CORE) :
    ((psci_cpu_on env core_idx entry).1 = PSCI_RET_DENIED ↔
      ((core_held_in_reset env.softrst0 (core_idx &&& MPIDR_CPU_MASK) = false ∧
        wait_core_wfe_i env.grf1 (core_idx &&& MPIDR_CPU_MASK) = false) ∨
       ((core_held_in_reset env.softrst0 (core_idx &&& MPIDR_CPU_MASK) = true ∨
         wait_core_wfe_i env.grf1 (core_idx &&& MPIDR_CPU_MASK) = true) ∧
        wait_core_wfe_i env.grf2 (core_idx &&& MPIDR_CPU_MASK) = false))) ∧
    ((psci_cpu_on env core_idx entry).1 = PSCI_RET_DENIED →
      ∀ e ∈ (psci_cpu_on env core_idx entry).2, e.isHandoff = false) := by
  have hcond : ¬(core_idx &&& MPIDR_CPU_MASK = 0 ∨
      CFG_TEE_CORE_NB_CORE ≤ core_idx &&& MPIDR_CPU_MASK) := by
    push_neg
    exact ⟨h0, hN⟩
  cases hheld : core_held_in_reset env.softrst0 (core_idx &&& MPIDR_CPU_MASK) <;>
    cases hw1 : wait_core_wfe_i env.grf1 (core_idx &&& MPIDR_CPU_MASK) <;>
      cases hw2 : wait_core_wfe_i env.grf2 (core_idx &&& MPIDR_CPU_MASK) <;>
        simp [psci_cpu_on, hcond, hheld, hw1, hw2, Ev.isHandoff,
          PSCI_RET_DENIED, PSCI_RET_SUCCESS]

/-- Witness for C5 at a concrete input: core 2 not held in reset and
never reporting wait-for-event is DENIED, with no handoff effects. -/
theorem c5_witness :
    (psci_cpu_on envStuck 2 100).1 = PSCI_RET_DENIED ∧
    ∀ e ∈ (psci_cpu_on envStuck 2 100).2, e.isHandoff = false := by
  have h := c5_cpu_on_denied envStuck 2 100 (by decide) (by decide)
  have hd : (psci_cpu_on envStuck 2 100).1 = PSCI_RET_DENIED :=
    h.1.mpr (Or.inl ⟨by decide, by decide⟩)
  exact ⟨hd, h.2 hd⟩

/-- C10 (implicit): for every `cpu_on` call whose masked core id passes
validation, the very first observable effect is the write of the
caller-supplied entry address into the entry-address table slot — it
precedes the held-in-reset check and every hardware-status wait — and
no later event of the same call writes the table again, so a call that
ends DENIED still leaves the slot updated (no rollback). -/
theorem c10_entry_write_first (env : CpuOnEnv) (core_idx entry : Nat)
    (h0 : core_idx &&& MPIDR_CPU_MASK ≠ 0)
    (hN : core_idx &&& MPIDR_CPU_MASK < CFG_TEE_CORE_NB_CORE) :
    ∃ rest, (psci_cpu_on env core_idx entry).2 =
        Ev.entryWrite (core_idx &&& MPIDR_CPU_MASK) entry :: rest ∧
      ∀ e ∈ rest, e.isEntryWrite = false := by
  have hcond : ¬(core_idx &&& MPIDR_CPU_MASK = 0 ∨
      CFG_TEE_CORE_NB_CORE ≤ core_idx &&& MPIDR_CPU_MASK) := by
    push_neg
    exact ⟨h0, hN⟩
  cases hheld : core_held_in_reset env.softrst0 (core_idx &&& MPIDR_CPU_MASK) <;>
    cases hw1 : wait_core_wfe_i env.grf1 (core_idx &&& MPIDR_CPU_MASK) <;>
      cases hw2 : wait_core_wfe_i env.grf2 (core_idx &&& MPIDR_CPU_MASK) <;>
        · refine ⟨(psci_cpu_on env core_idx entry).2.tail, ?_, ?_⟩ <;>
            simp [psci_cpu_on, hcond, hheld, hw1, hw2, Ev.isEntryWrite]

/-- Witness for C10 at a concrete input: the DENIED call on a stuck
core still starts with the entry-table write. -/
theorem c10_witness :
    ∃ rest, (psci_cpu_on envStuck 2 100).2 =
        Ev.entryWrite (2 &&& MPIDR_CPU_MASK) 100 :: rest ∧
      ∀ e ∈ rest, e.isEntryWrite = false :=
  c10_entry_write_first envStuck 2 100 (by decide) (by decide)

/-- C4: if a PLL never reports lock during resume, the restore path
polls exactly the configured bound of 500 iterations, then halts the
system (fatal `panic()`) instead of returning a status, and no register
write occurs after the halt point of the trace. -/
theorem c4_pll_lock_halt (locks : Nat → Nat → Nat) (d : DramData)
    (s : CruState) (h : ∀ t, locks APLL_ID t &&& PLL_LOCK = 0) :
    (plls_restore locks d s).1 = none ∧
    (plls_restore locks d s).2 =
      [Ev.regWrite (Reg.pllCon1 APLL_ID) PLL_POWER_UP,
       Ev.regWrite (Reg.pllCon1 GPLL_ID) PLL_POWER_UP,
       Ev.regWrite (Reg.pllCon1 CPLL_ID) PLL_POWER_UP,
       Ev.delay 200, Ev.lockWait APLL_ID 500, Ev.fatalHalt] ∧
    (∀ i j e, (plls_restore locks d s).2.get? i = some Ev.fatalHalt →
      i < j → (plls_restore locks d s).2.get? j = some e →
      e.isRegWrite = false) := by
  have hb : ∀ t, (locks APLL_ID t &&& PLL_LOCK != 0) = false := by
    intro t
    simp [h t]
  have hit : lockIters (locks APLL_ID) = 500 := by
    rw [lockIters]
    exact pollAux_const_false _ hb 0 500
  have hwl : pll_wait_lock (locks APLL_ID) = false := by
    rw [pll_wait_lock]
    exact hb _
  have h2 : (plls_restore locks d s).2 =
      [Ev.regWrite (Reg.pllCon1 APLL_ID) PLL_POWER_UP,
       Ev.regWrite (Reg.pllCon1 GPLL_ID) PLL_POWER_UP,
       Ev.regWrite (Reg.pllCon1 CPLL_ID) PLL_POWER_UP,
       Ev.delay 200, Ev.lockWait APLL_ID 500, Ev.fatalHalt] := by
    simp [plls_restore, hwl, hit]
  refine ⟨by simp [plls_restore, hwl], h2, ?_⟩
  intro i j e hi hij hj
  rw [h2] at hi hj
  have hjlen : j < 6 := by
    by_contra hge
    rw [List.get?_eq_none.mpr (by simp; omega)] at hj
    exact Option.noConfusion hj
  have hilt : i < 5 := by omega
  interval_cases i <;> simp_all

/-- Witness for C4 at the concrete stuck oracle: the restore of the
all-zero state halts with the expected trace. -/
theorem c4_witness :
    (plls_restore locksStuck dramZero cruZero).1 = none ∧
    (plls_restore locksStuck dramZero cruZero).2 =
      [Ev.regWrite (Reg.pllCon1 APLL_ID) PLL_POWER_UP,
       Ev.regWrite (Reg.pllCon1 GPLL_ID) PLL_POWER_UP,
       Ev.regWrite (Reg.pllCon1 CPLL_ID) PLL_POWER_UP,
       Ev.delay 200, Ev.lockWait APLL_ID 500, Ev.fatalHalt] := by
  have h := c4_pll_lock_halt locksStuck dramZero cruZero
    (fun t => by simp [locksStuck])
  exact ⟨h.1, h.2.1⟩

/-- Element-wise round trip of the clock-gate registers: forcing the
gating table under a full write mask and then writing back the saved
16-bit values restores every gate register exactly. -/
theorem gates_roundtrip (gs ts : List Nat) (hlen : gs.length = ts.length)
    (hg : ∀ g ∈ gs, g < 65536) :
    List.zipWith (fun g v => wmaskWrite g (BITS_WITH_WMASK v 0xffff 0))
      (List.zipWith (fun g t => wmaskWrite g (BITS_WITH_WMASK t 0xffff 0))
        gs ts)
      gs = gs := by
  induction gs generalizing ts with
  | nil => simp
  | cons g gs ih =>
    cases ts with
    | nil => simp at hlen
    | cons t ts =>
      simp only [List.zipWith_cons_cons]
      rw [wmaskWrite_full _ g (hg g (List.mem_cons_self g gs)),
        ih ts (by simpa using hlen) (fun x hx => hg x (List.mem_cons_of_mem g hx))]

/-- C3: for any pre-suspend 16-bit register contents, a completed
`system_suspend` (clock disable and PLL power-down followed by the
internal restore) leaves every clock-gate register, every clock-select
register, and the PLL-mode register bit-identical to its pre-suspend
value. -/
theorem c3_suspend_roundtrip (locks : Nat → Nat → Nat) (s : CruState)
    (d : DramData) (r : Int) (sOut : CruState)
    (hm : s.mode_con < 65536) (h0 : s.clksel0 < 65536)
    (h1 : s.clksel1 < 65536) (h10 : s.clksel10 < 65536)
    (h21 : s.clksel21 < 65536)
    (hlen : s.clkgate.length = CRU_CLKGATE_CON_CNT)
    (hg : ∀ g ∈ s.clkgate, g < 65536)
    (h : psci_system_suspend locks s d = some (r, sOut)) :
    sOut.mode_con = s.mode_con ∧ sOut.clksel0 = s.clksel0 ∧
    sOut.clksel1 = s.clksel1 ∧ sOut.clksel10 = s.clksel10 ∧
    sOut.clksel21 = s.clksel21 ∧ sOut.clkgate = s.clkgate := by
  cases hA : pll_wait_lock (locks APLL_ID) with
  | false => simp [psci_system_suspend, plls_restore, hA] at h
  | true =>
  cases hG : pll_wait_lock (locks GPLL_ID) with
  | false => simp [psci_system_suspend, plls_restore, hA, hG] at h
  | true =>
  cases hC : pll_wait_lock (locks CPLL_ID) with
  | false => simp [psci_system_suspend, plls_restore, hA, hG, hC] at h
  | true =>
  simp [psci_system_suspend, clks_disable, plls_power_down, pll_power_down,
    pll_power_up, pllCon1Write, plls_restore, clks_restore, hA, hG, hC] at h
  obtain ⟨hr, hs⟩ := h
  subst hs
  refine ⟨?_, ?_, ?_, ?_, ?_, ?_⟩
  · exact mode_con_roundtrip s.mode_con hm
  · exact clksel0_roundtrip s.clksel0 h0
  · exact clksel1_roundtrip s.clksel1 h1
  · exact clksel10_roundtrip s.clksel10 h10
  · exact clksel21_roundtrip s.clksel21 h21
  · exact gates_roundtrip s.clkgate clks_gating_table (by rw [hlen]; rfl) hg

/-- A concrete, non-degenerate pre-suspend register state for
instantiating the suspend round trip. -/
def cruInit : CruState :=
  ⟨0x1234, 0x2345, 0x3456, 0x4567, 0x5678,
   [1, 2, 3, 4, 5, 6, 7, 8, 9, 10, 11, 12, 13, 14, 15, 16],
   [0, 0, 0, 0]⟩

/-- Witness for C3 at a concrete input: suspending and restoring the
state `cruInit` with an immediately-locking PLL oracle returns SUCCESS
and reproduces every claimed register. -/
theorem c3_witness :
    psci_system_suspend locksOk cruInit dramZero =
      some (PSCI_RET_SUCCESS, cruInit) ∧
    cruInit.mode_con = cruInit.mode_con ∧
    cruInit.clkgate = cruInit.clkgate := by
  have hrun : psci_system_suspend locksOk cruInit dramZero =
      some (PSCI_RET_SUCCESS, cruInit) := by decide
  have h := c3_suspend_roundtrip locksOk cruInit dramZero PSCI_RET_SUCCESS
    cruInit (by decide) (by decide) (by decide) (by decide) (by decide)
    (by decide) (by decide) hrun
  exact ⟨hrun, h.1, h.2.2.2.2.2⟩

end RK322X
